import Mathlib

/-!
Shallow embedding of the kitchen-dashboard core of the pizzeria frontend
(`Entrega Final/admin/cocina.js` and the shared helper `formatearPrecio`
from `Entrega Final/scripts.js`), together with proofs of the behavioural
properties of the order-status engine, the order filtering/sorting pipeline
and the ticket formatter.

Modelling conventions:
* Monetary amounts are natural numbers (integer CLP, as in the source data).
* JavaScript values that may be a number or a string (the argument of
  `formatearPrecio`) are modelled by the sum type `JSVal`; `parseFloat`
  restricted to integer-valued inputs is modelled by taking the longest
  leading digit run (empty run, like `parseFloat` returning `NaN`, yields 0
  through the `|| 0` fallback).
* `toLocaleString('es-CL')` on a non-negative integer groups the digits in
  threes separated by `.`; this grouping is implemented directly.
* `toLocaleDateString` / `toLocaleTimeString` are environment calls: they are
  abstracted as an explicit parameter `loc : String → FechaHora` threaded to
  the functions that use them.  `new Date(s)` timestamp comparison used by the
  sort is likewise abstracted as a parameter `dparse : Option String → Int`.
* Optional / possibly-absent JS fields are `Option`s; JS truthiness of a
  string field (`undefined` and `""` are falsy) is `truthyStr`, of a numeric
  field (`undefined` and `0` are falsy) is `truthyNat`.
* The module-level mutable variables (`ordenesActuales`, `filtroActual`,
  `ordenSeleccionada`) are gathered in `EstadoApp` and threaded explicitly;
  `await`ed API calls are passed in as `Except` results.
-/

/-- A JavaScript value that is either a number or a string, as accepted by
`formatearPrecio` (prices may come from the API as strings). -/
inductive JSVal where
  | num (n : Nat)
  | str (s : String)
deriving DecidableEq, Repr

/-- Value of a digit character. -/
def valorDigito (c : Char) : Nat := c.toNat - '0'.toNat

/-- Fold a list of digit characters into the number they denote. -/
def digitosANat (cs : List Char) : Nat :=
  cs.foldl (fun acc c => 10 * acc + valorDigito c) 0

/-- Models `parseFloat(s) || 0` for integer-valued strings: the longest
leading run of digits, or 0 when there is none (`parseFloat` returns `NaN`,
which `|| 0` replaces by 0). -/
def parseFloatO0 (s : String) : Nat :=
  digitosANat (s.toList.takeWhile Char.isDigit)

/-- Group a reversed digit list in threes, inserting `.` separators;
models the es-CL thousands grouping of `toLocaleString`. -/
def agruparRev : List Char → List Char
  | a :: b :: c :: rest =>
      if rest.isEmpty then [a, b, c]
      else a :: b :: c :: '.' :: agruparRev rest
  | cs => cs

/-- `n.toLocaleString('es-CL')` for a non-negative integer: decimal digits
grouped in threes by `.` from the right. -/
def agruparMiles (n : Nat) : String :=
  String.mk (agruparRev (Nat.repr n).toList.reverse).reverse

/-- `formatearPrecio` (scripts.js:40-43): coerce to a number with
`parseFloat(precio) || 0`, then `'$' + n.toLocaleString('es-CL')`. -/
def formatearPrecio (precio : JSVal) : String :=
  let precioNumerico : Nat :=
    match precio with
    | .num n => n
    | .str s => parseFloatO0 s
  "$" ++ agruparMiles precioNumerico

/-- The `{fecha, hora}` record returned by `formatearFechaHora`. -/
structure FechaHora where
  fecha : String
  hora : String
deriving DecidableEq, Repr

/-- `formatearFechaHora` (cocina.js:103-110): a falsy `fechaISO`
(`undefined`/`null`/`""`) yields `{fecha:'Sin fecha', hora:''}`; otherwise the
locale-formatted date and time of `new Date(fechaISO)`, abstracted by the
environment parameter `loc`. -/
def formatearFechaHora (loc : String → FechaHora) (fechaISO : Option String) :
    FechaHora :=
  match fechaISO with
  | none => ⟨"Sin fecha", ""⟩
  | some s => if s.isEmpty then ⟨"Sin fecha", ""⟩ else loc s

/-- The descriptor object returned by `obtenerInfoEstadoCocina`.  Every
field is an `Option` because JS property reads may yield `undefined`: the
button fields are absent exactly where the source object literal omits them,
and for a descriptor obtained from the prototype chain (an inherited
`Object.prototype` member) every field read is `undefined`.
`mostrarBotonEstado` models the truthiness of that field (`undefined` is
falsy). -/
structure EstadoInfo where
  texto : Option String
  clase : Option String
  colorBorder : Option String
  mostrarBotonEstado : Bool
  botonTexto : Option String := none
  botonClase : Option String := none
  siguienteEstado : Option String := none
deriving DecidableEq, Repr

/-- The property names a plain object literal inherits from
`Object.prototype`: a JS bracket lookup `estados[estado]` with one of these
keys finds the inherited member — a truthy function (or, for `__proto__`,
the prototype object) — so the `|| fallback` never runs for them. -/
def clavesHeredadas : List String :=
  ["constructor", "hasOwnProperty", "isPrototypeOf", "propertyIsEnumerable",
   "toLocaleString", "toString", "valueOf", "__proto__",
   "__defineGetter__", "__defineSetter__", "__lookupGetter__",
   "__lookupSetter__"]

/-- JS string coercion of a possibly-`undefined` string value: `undefined`
concatenates as the text `"undefined"`. -/
def textoJS : Option String → String
  | some s => s
  | none => "undefined"

/-- `obtenerInfoEstadoCocina` (cocina.js:220-275): the `estados[estado] ||
fallback` lookup.  The seven own keys of the object literal return their
descriptors.  For any other key the JS bracket lookup consults the prototype
chain: a key naming an inherited `Object.prototype` member returns that
truthy member — whose descriptor fields all read as `undefined` — and the
`||` fallback never runs; only for the remaining keys does the lookup yield
`undefined` and the fallback `{texto: estado, clase: 'bg-secondary',
colorBorder: 'secondary', mostrarBotonEstado: false}` apply. -/
def obtenerInfoEstadoCocina (estado : String) : EstadoInfo :=
  if estado = "pendiente" then
    ⟨some "Pendiente", some "bg-secondary", some "secondary", true,
      some "Confirmar Pedido", some "primary", some "confirmado"⟩
  else if estado = "confirmado" then
    ⟨some "Confirmado", some "bg-primary", some "primary", true,
      some "Iniciar Preparación", some "warning", some "en_preparacion"⟩
  else if estado = "en_preparacion" then
    ⟨some "En Preparación", some "bg-warning text-dark", some "warning", true,
      some "Listo para Envío", some "info", some "en_camino"⟩
  else if estado = "en_camino" then
    ⟨some "En Camino", some "bg-info", some "info", false, none, none, none⟩
  else if estado = "entregado" then
    ⟨some "Entregado", some "bg-success", some "success", false,
      none, none, none⟩
  else if estado = "anulado" then
    ⟨some "Anulado", some "bg-danger", some "danger", false, none, none, none⟩
  else if estado = "cancelado" then
    ⟨some "Cancelado", some "bg-danger", some "danger", false,
      none, none, none⟩
  else if clavesHeredadas.contains estado then
    ⟨none, none, none, false, none, none, none⟩
  else
    ⟨some estado, some "bg-secondary", some "secondary", false,
      none, none, none⟩

/-- A status-changing button rendered on an order card: its visible label and
the `nuevoEstado` passed to `cambiarEstadoOrden`. -/
structure Accion where
  texto : String
  nuevoEstado : String
deriving DecidableEq, Repr

/-- The status-changing actions rendered on the card of an order with the
given `estado` (cocina.js:201-213): one button from the descriptor when
`mostrarBotonEstado` is set, plus the hard-coded `Marcar Entregado` button
added when `orden.estado === 'en_camino'`.  A missing button field would
concatenate as the string `"undefined"` in JS. -/
def accionesOrden (estado : String) : List Accion :=
  let info := obtenerInfoEstadoCocina estado
  (if info.mostrarBotonEstado then
    [⟨textoJS info.botonTexto, textoJS info.siguienteEstado⟩]
   else []) ++
  (if estado = "en_camino" then [⟨"Marcar Entregado", "entregado"⟩] else [])

/-- The `tamanio` sub-object of a line item (`{nombre}`). -/
structure Tamanio where
  nombre : String
deriving DecidableEq, Repr

/-- An `extras` entry of a line item (`{nombre, precio}`). -/
structure Extra where
  nombre : String
  precio : Nat
deriving DecidableEq, Repr

/-- A line item of `items_json.items`.  An absent `extras` array and the
empty array behave identically in the source (`item.extras &&
item.extras.length > 0`), so both are modelled as `[]`. -/
structure Item where
  nombre : String
  cantidad : Nat
  precio_unitario : Nat
  tamanio : Option Tamanio := none
  extras : List Extra := []
  notas : Option String := none
deriving DecidableEq, Repr

/-- The `items_json` field of an order (`{items: [...]}`). -/
structure ItemsJson where
  items : List Item
deriving DecidableEq, Repr

/-- An order record as consumed by the kitchen dashboard. -/
structure Orden where
  id : Nat
  estado : String
  fecha : Option String := none
  items_json : Option ItemsJson := none
  direccion : String
  telefono : String
  instrucciones_especiales : Option String := none
  eta_minutos : Option Nat := none
  metodo_pago : Option String := none
  subtotal : Nat
  costo_envio : Nat
  impuestos : Nat
  descuento : Nat := 0
  total : Nat
deriving DecidableEq, Repr

/-- JS truthiness of a possibly-absent string field: `undefined` and `""`
are falsy. -/
def truthyStr : Option String → Bool
  | none => false
  | some s => !s.isEmpty

/-- JS truthiness of a possibly-absent numeric field: `undefined` and `0`
are falsy. -/
def truthyNat : Option Nat → Bool
  | none => false
  | some n => n != 0

/-- `(orden.items_json && orden.items_json.items) ? orden.items_json.items
: []` (cocina.js:294). -/
def itemsDeOrden (o : Orden) : List Item :=
  match o.items_json with
  | some ij => ij.items
  | none => []

/-- The statuses shown under the `todos` filter (cocina.js:122-124). -/
def estadosCocina : List String :=
  ["pendiente", "confirmado", "en_preparacion", "en_camino"]

/-- The filtering step of `renderizarOrdenes` (cocina.js:118-130): under
`todos`, keep only the kitchen-relevant statuses; under any other filter
value, keep exactly the orders whose `estado` equals it. -/
def filtrarOrdenes (filtro : String) (ordenes : List Orden) : List Orden :=
  if filtro = "todos" then
    ordenes.filter (fun o => estadosCocina.contains o.estado)
  else
    ordenes.filter (fun o => o.estado = filtro)

/-- The sorting step of `renderizarOrdenes` (cocina.js:132-135):
`sort(function(a,b){ return new Date(b.fecha) - new Date(a.fecha); })`.
`Array.prototype.sort` is required to be stable (ES2019), so it is modelled
by the stable `List.mergeSort`; an element may precede another exactly when
the comparator is ≤ 0, i.e. when the other's timestamp is ≤ its own.  The
`new Date(...)` timestamp of a `fecha` field is the abstract environment
parameter `dparse`. -/
def ordenarOrdenes (dparse : Option String → Int) (l : List Orden) :
    List Orden :=
  l.mergeSort (fun a b => decide (dparse b.fecha ≤ dparse a.fecha))

/-- The list of orders rendered by `renderizarOrdenes` for a filter value:
filter, then sort by date descending. -/
def ordenesVista (dparse : Option String → Int) (filtro : String)
    (ordenes : List Orden) : List Orden :=
  ordenarOrdenes dparse (filtrarOrdenes filtro ordenes)

/-- The lines pushed for one line item inside the `items.forEach` loop of
`generarTicket` (cocina.js:312-333): quantity and name, the size suffix when
`item.tamanio && item.tamanio.nombre` is truthy, one indented line per extra,
the notes line when truthy, the computed `Precio` line and a blank line. -/
def itemLineas (item : Item) : List String :=
  let base := Nat.repr item.cantidad ++ "x " ++ item.nombre
  let conTamanio :=
    match item.tamanio with
    | some t => if t.nombre.isEmpty then base else base ++ " (" ++ t.nombre ++ ")"
    | none => base
  [conTamanio] ++
  item.extras.map (fun e =>
    "    + " ++ e.nombre ++ " (" ++ formatearPrecio (.num e.precio) ++ ")") ++
  (if truthyStr item.notas then ["    Notas: " ++ item.notas.getD ""] else []) ++
  ["    Precio: " ++ formatearPrecio (.num (item.precio_unitario * item.cantidad)),
   ""]

/-- The `lineas` array built by `generarTicket` (cocina.js:292-371), in push
order: header block, order/date/time block, items header, the per-item lines,
delivery block, the two optional blocks, totals (with the discount line only
when `orden.descuento > 0`), total, and the status / payment-method footer. -/
def ticketLineas (loc : String → FechaHora) (orden : Orden) : List String :=
  let fechaHora := formatearFechaHora loc orden.fecha
  let items := itemsDeOrden orden
  ["========================================",
   "        PIZZERÍA LA FORNACE",
   "        TICKET DE COCINA",
   "========================================",
   "",
   "Orden #: " ++ Nat.repr orden.id,
   "Fecha: " ++ fechaHora.fecha,
   "Hora: " ++ fechaHora.hora,
   "",
   "----------------------------------------",
   "ITEMS DEL PEDIDO:",
   "----------------------------------------",
   ""] ++
  (items.map itemLineas).flatten ++
  ["----------------------------------------",
   "DIRECCIÓN DE ENTREGA:",
   "----------------------------------------",
   orden.direccion,
   "Tel: " ++ orden.telefono,
   ""] ++
  (if truthyStr orden.instrucciones_especiales then
    ["INSTRUCCIONES ESPECIALES:", orden.instrucciones_especiales.getD "", ""]
   else []) ++
  (if truthyNat orden.eta_minutos then
    ["ETA: " ++ Nat.repr (orden.eta_minutos.getD 0) ++ " minutos", ""]
   else []) ++
  ["----------------------------------------",
   "SUBTOTAL: " ++ formatearPrecio (.num orden.subtotal),
   "ENVÍO: " ++ formatearPrecio (.num orden.costo_envio),
   "IVA: " ++ formatearPrecio (.num orden.impuestos)] ++
  (if 0 < orden.descuento then
    ["DESCUENTO: -" ++ formatearPrecio (.num orden.descuento)]
   else []) ++
  ["----------------------------------------",
   "TOTAL: " ++ formatearPrecio (.num orden.total),
   "----------------------------------------",
   "",
   "Estado: " ++ textoJS (obtenerInfoEstadoCocina orden.estado).texto,
   "Método de pago: " ++
     (match orden.metodo_pago with
      | some m => if m.isEmpty then "No especificado" else m
      | none => "No especificado"),
   "",
   "========================================"]

/-- `generarTicket` (cocina.js:292-373): `lineas.join('\n')`. -/
def generarTicket (loc : String → FechaHora) (orden : Orden) : String :=
  String.intercalate "\n" (ticketLineas loc orden)

/-- The module-level mutable state of cocina.js: `ordenesActuales`,
`filtroActual` and `ordenSeleccionada`. -/
structure EstadoApp where
  ordenesActuales : List Orden
  filtroActual : String
  ordenSeleccionada : Option Orden
deriving DecidableEq, Repr

/-- `generarTicket` with the module state threaded explicitly.  The source
body references none of the module-level variables, so the translation
returns the state unchanged alongside the rendered string. -/
def generarTicketConEstado (loc : String → FechaHora) (st : EstadoApp)
    (orden : Orden) : String × EstadoApp :=
  (generarTicket loc orden, st)

/-- `cargarOrdenes` (cocina.js:73-94) acting on the module state: on a
successful fetch, `ordenesActuales` is replaced wholesale by the response
(a non-array response, modelled as `.ok none`, becomes `[]`); when the
`await` throws, the assignment never runs and the previous list is kept
(only an error panel is shown). -/
def cargarOrdenes (resp : Except String (Option (List Orden)))
    (st : EstadoApp) : EstadoApp :=
  match resp with
  | .ok (some l) => { st with ordenesActuales := l }
  | .ok none => { st with ordenesActuales := [] }
  | .error _ => st

/-- `cambiarEstadoOrden` (cocina.js:411-424) acting on the module state:
`patchResp` is the result of the `api.patch` call and `fetchResp` the result
of the `api.get('/pedidos')` performed by the nested `cargarOrdenes`.  On
success it shows the success message and reloads the list; when the PATCH
throws, it shows the inline error and does not touch the list.  The returned
string is the user-visible message. -/
def cambiarEstadoOrden (patchResp : Except String Unit)
    (fetchResp : Except String (Option (List Orden)))
    (ordenId : Nat) (nuevoEstado : String) (st : EstadoApp) :
    EstadoApp × String :=
  match patchResp with
  | .ok _ =>
      (cargarOrdenes fetchResp st,
       "Orden #" ++ Nat.repr ordenId ++ " actualizada a: " ++
         textoJS (obtenerInfoEstadoCocina nuevoEstado).texto)
  | .error e => (st, "Error al actualizar orden: " ++ e)

/-- Character-list string prefix test (kernel-reducible, unlike the byte-wise
`String` primitive). -/
def esPrefijo (p s : String) : Bool := p.data.isPrefixOf s.data

/-- A concrete locale formatter standing in for the browser environment of
`toLocaleDateString('es-CL')` / `toLocaleTimeString('es-CL')`. -/
def locEj : String → FechaHora := fun _ => ⟨"01-01-2024", "12:00"⟩

/-- The line item of the spec's order-77 scenario: 2x Hawaiana, unit price
19600, size `grande`. -/
def itemEj : Item :=
  { nombre := "Hawaiana", cantidad := 2, precio_unitario := 19600,
    tamanio := some ⟨"grande"⟩ }

/-- The spec's order-77 scenario order. -/
def ordenEj : Orden :=
  { id := 77, estado := "pendiente", fecha := some "2024-01-01T12:00:00Z",
    items_json := some ⟨[itemEj]⟩,
    direccion := "Calle 1", telefono := "+56912345678",
    subtotal := 39200, costo_envio := 2000, impuestos := 3000,
    descuento := 0, total := 44200 }

/-- Character-list string suffix test (kernel-reducible). -/
def esSufijo (p s : String) : Bool := p.data.isSuffixOf s.data

/-- A concrete stand-in for the `new Date(fecha)` timestamp of the browser
environment, used to instantiate sorting theorems. -/
def dpEj : Option String → Int := fun f => ((f.getD "").length : Int)

/-- C1 (counterexample): for an order with estado `en_camino` the rendered
card does NOT expose a next-sequential action in addition to `Marcar
Entregado`: the descriptor for `en_camino` has `mostrarBotonEstado: false`,
so the card carries exactly one status-changing action, not two. -/
theorem c1_contraejemplo :
    accionesOrden "en_camino" = [⟨"Marcar Entregado", "entregado"⟩] ∧
    (obtenerInfoEstadoCocina "en_camino").mostrarBotonEstado = false ∧
    ¬ 2 ≤ (accionesOrden "en_camino").length := by
  decide

/-- C1 (amended): the card of an `en_camino` order exposes exactly one
action, the explicit `Marcar Entregado` button targeting `entregado`;
`en_camino` is the only status whose card carries that button; the card of an
`entregado` order exposes no action at all. -/
theorem c1_acciones_en_camino (e : String) :
    ((⟨"Marcar Entregado", "entregado"⟩ : Accion) ∈ accionesOrden e ↔
      e = "en_camino") ∧
    accionesOrden "en_camino" = [⟨"Marcar Entregado", "entregado"⟩] ∧
    accionesOrden "entregado" = [] := by
  refine ⟨?_, by decide, by decide⟩
  by_cases h1 : e = "pendiente"
  · subst h1; decide
  by_cases h2 : e = "confirmado"
  · subst h2; decide
  by_cases h3 : e = "en_preparacion"
  · subst h3; decide
  by_cases h4 : e = "en_camino"
  · subst h4; decide
  by_cases h5 : e = "entregado"
  · subst h5; decide
  by_cases h6 : e = "anulado"
  · subst h6; decide
  by_cases h7 : e = "cancelado"
  · subst h7; decide
  by_cases h8 : e ∈ clavesHeredadas
  · simp [accionesOrden, obtenerInfoEstadoCocina,
      h1, h2, h3, h4, h5, h6, h7, h8]
  · simp [accionesOrden, obtenerInfoEstadoCocina,
      h1, h2, h3, h4, h5, h6, h7, h8]

/-- C1 (witness): the amended statement instantiated at `entregado`. -/
theorem c1_acciones_en_camino_witness :
    ((⟨"Marcar Entregado", "entregado"⟩ : Accion) ∈ accionesOrden "entregado" ↔
      ("entregado" : String) = "en_camino") ∧
    accionesOrden "en_camino" = [⟨"Marcar Entregado", "entregado"⟩] ∧
    accionesOrden "entregado" = [] :=
  c1_acciones_en_camino "entregado"

/-- C2: under the `todos` filter the view contains exactly the orders whose
`estado` is one of `pendiente`, `confirmado`, `en_preparacion`, `en_camino`;
in particular it never contains an `entregado`, `anulado` or `cancelado`
order; under any other filter value the view contains exactly the orders
whose `estado` is string-equal to the filter value. -/
theorem c2_filtrado (ordenes : List Orden) (o : Orden) (f : String) :
    (o ∈ filtrarOrdenes "todos" ordenes ↔
      o ∈ ordenes ∧ (o.estado = "pendiente" ∨ o.estado = "confirmado" ∨
        o.estado = "en_preparacion" ∨ o.estado = "en_camino")) ∧
    (o ∈ filtrarOrdenes "todos" ordenes →
      o.estado ≠ "entregado" ∧ o.estado ≠ "anulado" ∧ o.estado ≠ "cancelado") ∧
    (f ≠ "todos" →
      (o ∈ filtrarOrdenes f ordenes ↔ o ∈ ordenes ∧ o.estado = f)) := by
  refine ⟨?_, ?_, ?_⟩
  · simp [filtrarOrdenes, estadosCocina, List.mem_filter, and_comm]
  · intro h
    simp [filtrarOrdenes, estadosCocina, List.mem_filter] at h
    rcases h with ⟨-, h | h | h | h⟩ <;> simp [h]
  · intro hf
    simp [filtrarOrdenes, hf, List.mem_filter]

/-- C2 (witness): the filtering contract evaluated on a concrete two-order
list, one `en_camino` and one `entregado`. -/
theorem c2_filtrado_witness :
    ({ id := 1, estado := "entregado", direccion := "a", telefono := "b",
       subtotal := 0, costo_envio := 0, impuestos := 0, total := 0 } : Orden) ∈
      filtrarOrdenes "entregado"
        [{ id := 1, estado := "entregado", direccion := "a", telefono := "b",
           subtotal := 0, costo_envio := 0, impuestos := 0, total := 0 }] ∧
    ({ id := 1, estado := "entregado", direccion := "a", telefono := "b",
       subtotal := 0, costo_envio := 0, impuestos := 0, total := 0 } : Orden) ∉
      filtrarOrdenes "todos"
        [{ id := 1, estado := "entregado", direccion := "a", telefono := "b",
           subtotal := 0, costo_envio := 0, impuestos := 0, total := 0 }] := by
  constructor
  · exact ((c2_filtrado _ _ "entregado").2.2 (by decide)).mpr ⟨by decide, by decide⟩
  · intro hmem
    have h := ((c2_filtrado
      [{ id := 1, estado := "entregado", direccion := "a", telefono := "b",
         subtotal := 0, costo_envio := 0, impuestos := 0, total := 0 }]
      { id := 1, estado := "entregado", direccion := "a", telefono := "b",
        subtotal := 0, costo_envio := 0, impuestos := 0, total := 0 }
      "entregado").2.1 hmem).1
    exact h rfl

/-- C5 (counterexample): the claim fails for unrecognized status strings
that name inherited `Object.prototype` members: `estados['toString']` finds
the inherited function, which is truthy, so the `|| fallback` never runs —
the descriptor's label reads as `undefined` (not the status itself), and the
ticket renders `Estado: undefined` instead of rendering the status
verbatim. -/
theorem c5_contraejemplo :
    ("toString" : String) ∉
      ["pendiente", "confirmado", "en_preparacion", "en_camino",
       "entregado", "anulado", "cancelado"] ∧
    (obtenerInfoEstadoCocina "toString").texto ≠ some "toString" ∧
    (obtenerInfoEstadoCocina "toString").mostrarBotonEstado = false ∧
    ("Estado: undefined") ∈
      ticketLineas locEj { ordenEj with estado := "toString" } ∧
    ("Estado: toString") ∉
      ticketLineas locEj { ordenEj with estado := "toString" } := by
  decide

/-- C5 (amended): for every unrecognized status string that does not name an
inherited `Object.prototype` property, `obtenerInfoEstadoCocina` returns
(without failing — it is a total function) the fallback descriptor whose
label is the status itself, with neutral style and no actionable button, and
the ticket renders the status verbatim in its `Estado:` line; for an
unrecognized string that does name an inherited property, the bracket lookup
returns the truthy inherited member, every descriptor field reads as
`undefined` — so the label renders as `undefined`, and the status is still
not actionable. -/
theorem c5_estado_desconocido (s : String) (loc : String → FechaHora)
    (o : Orden)
    (hs : s ∉ ["pendiente", "confirmado", "en_preparacion", "en_camino",
               "entregado", "anulado", "cancelado"]) :
    (s ∉ clavesHeredadas →
      obtenerInfoEstadoCocina s =
        ⟨some s, some "bg-secondary", some "secondary", false,
         none, none, none⟩ ∧
      (o.estado = s → ("Estado: " ++ s) ∈ ticketLineas loc o)) ∧
    (s ∈ clavesHeredadas →
      obtenerInfoEstadoCocina s =
        ⟨none, none, none, false, none, none, none⟩ ∧
      (o.estado = s → ("Estado: " ++ "undefined") ∈ ticketLineas loc o)) := by
  simp only [List.mem_cons, List.not_mem_nil, or_false, not_or] at hs
  obtain ⟨h1, h2, h3, h4, h5, h6, h7⟩ := hs
  constructor
  · intro hnot
    have hinfo : obtenerInfoEstadoCocina s =
        ⟨some s, some "bg-secondary", some "secondary", false,
         none, none, none⟩ := by
      simp [obtenerInfoEstadoCocina, h1, h2, h3, h4, h5, h6, h7, hnot]
    refine ⟨hinfo, fun he => ?_⟩
    simp [ticketLineas, he, hinfo, textoJS]
  · intro hmem
    have hinfo : obtenerInfoEstadoCocina s =
        ⟨none, none, none, false, none, none, none⟩ := by
      simp [obtenerInfoEstadoCocina, h1, h2, h3, h4, h5, h6, h7, hmem]
    refine ⟨hinfo, fun he => ?_⟩
    simp [ticketLineas, he, hinfo, textoJS]

/-- C5 (witness): the fallback branch of the amended statement discharged at
the spec's concrete unknown status `unknown_value` (which names no inherited
property). -/
theorem c5_estado_desconocido_witness :
    obtenerInfoEstadoCocina "unknown_value" =
      ⟨some "unknown_value", some "bg-secondary", some "secondary", false,
       none, none, none⟩ ∧
    ("Estado: " ++ "unknown_value") ∈
      ticketLineas locEj { ordenEj with estado := "unknown_value" } := by
  obtain ⟨hfb, -⟩ := c5_estado_desconocido "unknown_value" locEj
    { ordenEj with estado := "unknown_value" } (by decide)
  obtain ⟨hi, hm⟩ := hfb (by decide)
  exact ⟨hi, hm rfl⟩

/-- C7: `generarTicket` is pure and deterministic: threaded through the
module state it leaves the state untouched, and a second call on the same
order (after the first) produces the identical string.  Both facts hold
definitionally because the source body reads only its argument and calls only
pure helpers. -/
theorem c7_determinismo (loc : String → FechaHora) (st : EstadoApp)
    (o : Orden) :
    (generarTicketConEstado loc st o).2 = st ∧
    (generarTicketConEstado loc ((generarTicketConEstado loc st o).2) o).1 =
      (generarTicketConEstado loc st o).1 ∧
    (generarTicketConEstado loc st o).1 = generarTicket loc o := by
  simp [generarTicketConEstado]

/-- C7 (witness): determinism and state preservation at the concrete
order 77 and an arbitrary concrete module state. -/
theorem c7_determinismo_witness :
    (generarTicketConEstado locEj ⟨[ordenEj], "todos", none⟩ ordenEj).2 =
      ⟨[ordenEj], "todos", none⟩ ∧
    (generarTicketConEstado locEj
      ((generarTicketConEstado locEj ⟨[ordenEj], "todos", none⟩ ordenEj).2)
      ordenEj).1 =
      (generarTicketConEstado locEj ⟨[ordenEj], "todos", none⟩ ordenEj).1 ∧
    (generarTicketConEstado locEj ⟨[ordenEj], "todos", none⟩ ordenEj).1 =
      generarTicket locEj ordenEj :=
  c7_determinismo locEj ⟨[ordenEj], "todos", none⟩ ordenEj

/-- C9: after a successful PATCH, `cambiarEstadoOrden` reloads the order
list wholesale from the authoritative store — the new `ordenesActuales` is
exactly the fetched list, independent of the previous local list — and shows
the success message; when the PATCH fails, it reports the error inline and
leaves the whole module state (in particular the order list) unchanged. -/
theorem c9_cambiar_estado (st : EstadoApp) (ordenId : Nat)
    (nuevoEstado : String) (l : List Orden)
    (fetchResp : Except String (Option (List Orden))) (e : String) :
    (cambiarEstadoOrden (.ok ()) (.ok (some l)) ordenId nuevoEstado
        st).1.ordenesActuales = l ∧
    (cambiarEstadoOrden (.ok ()) (.ok (some l)) ordenId nuevoEstado st).2 =
      "Orden #" ++ Nat.repr ordenId ++ " actualizada a: " ++
        textoJS (obtenerInfoEstadoCocina nuevoEstado).texto ∧
    (cambiarEstadoOrden (.error e) fetchResp ordenId nuevoEstado st).1 = st ∧
    (cambiarEstadoOrden (.error e) fetchResp ordenId nuevoEstado st).2 =
      "Error al actualizar orden: " ++ e :=
  ⟨rfl, rfl, rfl, rfl⟩

/-- C9 (witness): the transition outcome evaluated at order 77, a successful
PATCH with a one-order reload, and a failing PATCH. -/
theorem c9_cambiar_estado_witness :
    (cambiarEstadoOrden (.ok ()) (.ok (some [ordenEj])) 77 "confirmado"
        ⟨[], "todos", none⟩).1.ordenesActuales = [ordenEj] ∧
    (cambiarEstadoOrden (.ok ()) (.ok (some [ordenEj])) 77 "confirmado"
        ⟨[], "todos", none⟩).2 =
      "Orden #" ++ Nat.repr 77 ++ " actualizada a: " ++
        textoJS (obtenerInfoEstadoCocina "confirmado").texto ∧
    (cambiarEstadoOrden (.error "boom") (.ok (some [ordenEj])) 77 "confirmado"
        ⟨[], "todos", none⟩).1 = ⟨[], "todos", none⟩ ∧
    (cambiarEstadoOrden (.error "boom") (.ok (some [ordenEj])) 77 "confirmado"
        ⟨[], "todos", none⟩).2 = "Error al actualizar orden: " ++ "boom" :=
  c9_cambiar_estado ⟨[], "todos", none⟩ 77 "confirmado" [ordenEj]
    (.ok (some [ordenEj])) "boom"

/-- C10: for every order (and every locale environment), the ticket's line
list begins with the constant four-line header block and its final line is
the constant `====` footer rule. -/
theorem c10_encabezado_pie (loc : String → FechaHora) (o : Orden) :
    (ticketLineas loc o).take 4 =
      ["========================================",
       "        PIZZERÍA LA FORNACE",
       "        TICKET DE COCINA",
       "========================================"] ∧
    (ticketLineas loc o).getLast? =
      some "========================================" := by
  constructor
  · simp [ticketLineas]
  · simp [ticketLineas, List.getLast?_cons]

/-- C10 (witness): the header and footer of the concrete order-77 ticket. -/
theorem c10_encabezado_pie_witness :
    (ticketLineas locEj ordenEj).take 4 =
      ["========================================",
       "        PIZZERÍA LA FORNACE",
       "        TICKET DE COCINA",
       "========================================"] ∧
    (ticketLineas locEj ordenEj).getLast? =
      some "========================================" :=
  c10_encabezado_pie locEj ordenEj


/-- C4: the money formatter produces the es-CL grouped format with a `$`
sign and no decimals — `19600 ↦ "$19.600"`, `0 ↦ "$0"`, and the string-typed
input `"22700" ↦ "$22.700"` — and the very same `formatearPrecio` output
appears verbatim in every price-bearing ticket line (`SUBTOTAL`, `ENVÍO`,
`IVA`, `TOTAL`, and the per-item `Precio` line) for every order. -/
theorem c4_formatear_precio (loc : String → FechaHora) (o : Orden)
    (item : Item) :
    formatearPrecio (.num 19600) = "$19.600" ∧
    formatearPrecio (.num 0) = "$0" ∧
    formatearPrecio (.str "22700") = "$22.700" ∧
    ("SUBTOTAL: " ++ formatearPrecio (.num o.subtotal)) ∈ ticketLineas loc o ∧
    ("ENVÍO: " ++ formatearPrecio (.num o.costo_envio)) ∈ ticketLineas loc o ∧
    ("IVA: " ++ formatearPrecio (.num o.impuestos)) ∈ ticketLineas loc o ∧
    ("TOTAL: " ++ formatearPrecio (.num o.total)) ∈ ticketLineas loc o ∧
    ("    Precio: " ++
      formatearPrecio (.num (item.precio_unitario * item.cantidad))) ∈
      itemLineas item := by
  refine ⟨by decide, by decide, by decide, ?_, ?_, ?_, ?_, ?_⟩
  · simp [ticketLineas]
  · simp [ticketLineas]
  · simp [ticketLineas]
  · simp [ticketLineas]
  · simp [itemLineas]

/-- C4 (witness): the formatter contract evaluated at the order-77 ticket. -/
theorem c4_formatear_precio_witness :
    formatearPrecio (.num 19600) = "$19.600" ∧
    formatearPrecio (.num 0) = "$0" ∧
    formatearPrecio (.str "22700") = "$22.700" ∧
    ("SUBTOTAL: " ++ formatearPrecio (.num ordenEj.subtotal)) ∈
      ticketLineas locEj ordenEj ∧
    ("ENVÍO: " ++ formatearPrecio (.num ordenEj.costo_envio)) ∈
      ticketLineas locEj ordenEj ∧
    ("IVA: " ++ formatearPrecio (.num ordenEj.impuestos)) ∈
      ticketLineas locEj ordenEj ∧
    ("TOTAL: " ++ formatearPrecio (.num ordenEj.total)) ∈
      ticketLineas locEj ordenEj ∧
    ("    Precio: " ++
      formatearPrecio (.num (itemEj.precio_unitario * itemEj.cantidad))) ∈
      itemLineas itemEj :=
  c4_formatear_precio locEj ordenEj itemEj

set_option maxRecDepth 4000 in
/-- C3 (counterexample): the ticket generated for the spec's order 77 does
contain the line `TOTAL: $44.200`, but it does not END with it — after the
totals block the source still pushes the separator, the `Estado:` and
`Método de pago:` lines and the footer rule, so the ticket's last line is the
`====` footer. -/
theorem c3_contraejemplo :
    "TOTAL: $44.200" ∈ ticketLineas locEj ordenEj ∧
    (ticketLineas locEj ordenEj).getLast? =
      some "========================================" ∧
    ¬ esSufijo "TOTAL: $44.200" (generarTicket locEj ordenEj) := by
  refine ⟨by decide, by decide, by decide⟩

/-- Every character `Nat.digitChar` produces for a base-10 digit is a
decimal digit. -/
theorem digitChar_isDigit : ∀ m, m < 10 → (Nat.digitChar m).isDigit := by
  decide

/-- `Nat.toDigitsCore` at base 10 with positive fuel returns a list headed
by a decimal digit character. -/
theorem toDigitsCore_cabeza :
    ∀ (fuel n : Nat) (ds : List Char),
      ∃ c cs, Nat.toDigitsCore 10 (fuel + 1) n ds = c :: cs ∧ c.isDigit := by
  intro fuel
  induction fuel with
  | zero =>
      intro n ds
      refine ⟨Nat.digitChar (n % 10), ds, ?_,
        digitChar_isDigit _ (Nat.mod_lt _ (by decide))⟩
      by_cases h : n / 10 = 0 <;> simp [Nat.toDigitsCore, h]
  | succ fuel ih =>
      intro n ds
      by_cases h : n / 10 = 0
      · exact ⟨Nat.digitChar (n % 10), ds, by
          rw [Nat.toDigitsCore]
          simp [h], digitChar_isDigit _ (Nat.mod_lt _ (by decide))⟩
      · obtain ⟨c, cs, hc, hd⟩ := ih (n / 10) (Nat.digitChar (n % 10) :: ds)
        refine ⟨c, cs, ?_, hd⟩
        rw [Nat.toDigitsCore, if_neg h]
        exact hc

/-- The decimal representation of a natural number begins with a digit
character — so a ticket line opening with an item quantity can never carry
the `DESCUENTO` prefix. -/
theorem repr_cabeza_digito (n : Nat) :
    ∃ c cs, (Nat.repr n).data = c :: cs ∧ c.isDigit := by
  obtain ⟨c, cs, hc, hd⟩ := toDigitsCore_cabeza n n []
  refine ⟨c, cs, ?_, hd⟩
  show Nat.toDigitsCore 10 (n + 1) n [] = c :: cs
  exact hc

/-- A string whose first character differs from `D` cannot carry the
`DESCUENTO` prefix. -/
theorem no_prefijo_descuento {s : String} {d : Char} {ds : List Char}
    (hs : s.data = d :: ds) (hd : d ≠ 'D') :
    ¬ esPrefijo "DESCUENTO" s := by
  intro h
  simp only [esPrefijo, hs] at h
  rw [List.isPrefixOf_cons₂] at h
  simp only [Bool.and_eq_true, beq_iff_eq] at h
  exact hd h.1.symm

/-- Variant of `no_prefijo_descuento` phrased through `head?`, convenient
when the head character is only known through an equation. -/
theorem no_prefijo_descuento_head {s : String} {d : Char}
    (hs : s.data.head? = some d) (hd : d ≠ 'D') :
    ¬ esPrefijo "DESCUENTO" s := by
  cases hll : s.data with
  | nil => rw [hll] at hs; exact absurd hs (by simp)
  | cons a as =>
      rw [hll] at hs
      simp only [List.head?_cons, Option.some.injEq] at hs
      subst hs
      exact no_prefijo_descuento hll hd

/-- Any extension of `DESCUENTO: -` does carry the `DESCUENTO` prefix. -/
theorem prefijo_descuento_append (x : String) :
    esPrefijo "DESCUENTO" ("DESCUENTO: -" ++ x) := by
  have h1 : List.IsPrefix "DESCUENTO".data "DESCUENTO: -".data := by decide
  have h2 : List.IsPrefix "DESCUENTO: -".data ("DESCUENTO: -" ++ x).data := by
    rw [String.data_append]
    exact List.prefix_append _ _
  simp only [esPrefijo, List.isPrefixOf_iff_prefix]
  exact h1.trans h2

/-- No line of an item block begins with `DESCUENTO`: the name line begins
with the quantity's first digit, the extra/notes/price lines with four
spaces. -/
theorem itemLineas_sin_descuento (item : Item) :
    ∀ l ∈ itemLineas item, ¬ esPrefijo "DESCUENTO" l := by
  obtain ⟨ch, cs, hc, hdig⟩ := repr_cabeza_digito item.cantidad
  have hchD : ch ≠ 'D' := by
    intro he
    rw [he] at hdig
    exact absurd hdig (by decide)
  simp only [itemLineas, List.forall_mem_append, List.forall_mem_cons,
    List.forall_mem_map, List.not_mem_nil, forall_const,
    IsEmpty.forall_iff, and_true, true_and]
  refine ⟨⟨⟨?_, ?_⟩, ?_⟩, ?_, ?_⟩
  · rcases htam : item.tamanio with _ | t
    · exact no_prefijo_descuento_head (by simp [hc]) hchD
    · simp only [htam]
      by_cases hte : t.nombre.isEmpty
      · rw [if_pos hte]
        exact no_prefijo_descuento_head (by simp [hc]) hchD
      · rw [if_neg hte]
        exact no_prefijo_descuento_head (by simp [hc]) hchD
  · intro j hj
    exact no_prefijo_descuento rfl (by decide)
  · by_cases hn : truthyStr item.notas
    · rw [if_pos hn]
      intro x hx
      simp only [List.mem_cons, List.not_mem_nil, or_false] at hx
      subst hx
      exact no_prefijo_descuento rfl (by decide)
    · rw [if_neg hn]
      intro x hx
      exact absurd hx (List.not_mem_nil x)
  · exact no_prefijo_descuento rfl (by decide)
  · decide

/-- Structural only-if direction of the discount clause: when `descuento` is
not positive, no ticket line begins with `DESCUENTO` — every fixed line of
the layout starts with a different character, item blocks are covered by
`itemLineas_sin_descuento`, and the two verbatim-rendered free-text fields
are excluded by hypothesis. -/
theorem ticketLineas_sin_descuento (loc : String → FechaHora) (o : Orden)
    (hdir : ¬ esPrefijo "DESCUENTO" o.direccion)
    (hins : ¬ esPrefijo "DESCUENTO" (o.instrucciones_especiales.getD ""))
    (hdesc : ¬ 0 < o.descuento) :
    ∀ l ∈ ticketLineas loc o, ¬ esPrefijo "DESCUENTO" l := by
  simp only [ticketLineas, List.forall_mem_append, List.forall_mem_cons,
    List.not_mem_nil, forall_const, IsEmpty.forall_iff, and_true, true_and,
    if_neg hdesc]
  refine ⟨⟨⟨⟨⟨⟨?_, ?_⟩, ?_⟩, ?_⟩, ?_⟩, ?_⟩, ?_⟩
  · exact ⟨by decide, by decide, by decide, by decide, by decide,
      no_prefijo_descuento rfl (by decide),
      no_prefijo_descuento rfl (by decide),
      no_prefijo_descuento rfl (by decide),
      by decide, by decide, by decide, by decide, by decide⟩
  · intro x hx
    rw [List.mem_flatten] at hx
    obtain ⟨lst, hlst, hxl⟩ := hx
    rw [List.mem_map] at hlst
    obtain ⟨it, hit, rfl⟩ := hlst
    exact itemLineas_sin_descuento it x hxl
  · exact ⟨by decide, by decide, by decide, hdir,
      no_prefijo_descuento rfl (by decide), by decide⟩
  · by_cases hi : truthyStr o.instrucciones_especiales
    · rw [if_pos hi]
      intro x hx
      simp only [List.mem_cons, List.not_mem_nil, or_false] at hx
      rcases hx with rfl | rfl | rfl
      · decide
      · exact hins
      · decide
    · rw [if_neg hi]
      intro x hx
      exact absurd hx (List.not_mem_nil x)
  · by_cases he : truthyNat o.eta_minutos
    · rw [if_pos he]
      intro x hx
      simp only [List.mem_cons, List.not_mem_nil, or_false] at hx
      rcases hx with rfl | rfl
      · exact no_prefijo_descuento rfl (by decide)
      · decide
    · rw [if_neg he]
      intro x hx
      exact absurd hx (List.not_mem_nil x)
  · exact ⟨by decide, no_prefijo_descuento rfl (by decide),
      no_prefijo_descuento rfl (by decide),
      no_prefijo_descuento rfl (by decide)⟩
  · exact ⟨by decide, no_prefijo_descuento rfl (by decide), by decide,
      by decide, no_prefijo_descuento rfl (by decide),
      no_prefijo_descuento rfl (by decide), by decide, by decide⟩

/-- C3 (amended): the order-77 ticket contains the line
`2x Hawaiana (grande)` and a line `Precio: $39.200` (the ticket's `Precio`
line, which the layout indents by four spaces), contains no `DESCUENTO`
line, and contains the line `TOTAL: $44.200`; the ticket itself ends with
the constant footer rule rather than with the TOTAL line.  In general the
`DESCUENTO: -{formatted discount}` line appears if and only if
`descuento > 0`: the line is always emitted when `descuento > 0`, and — for
any order whose verbatim-rendered free-text fields (`direccion`,
`instrucciones_especiales`) do not themselves begin with `DESCUENTO` — a
`DESCUENTO`-prefixed line occurs in the ticket exactly when
`descuento > 0`. -/
theorem c3_ticket_orden77 :
    "2x Hawaiana (grande)" ∈ ticketLineas locEj ordenEj ∧
    "    Precio: $39.200" ∈ ticketLineas locEj ordenEj ∧
    (∀ l ∈ ticketLineas locEj ordenEj, ¬ esPrefijo "DESCUENTO" l) ∧
    (∀ (loc : String → FechaHora) (o : Orden), 0 < o.descuento →
      ("DESCUENTO: -" ++ formatearPrecio (.num o.descuento)) ∈
        ticketLineas loc o) ∧
    (∀ (loc : String → FechaHora) (o : Orden),
      ¬ esPrefijo "DESCUENTO" o.direccion →
      ¬ esPrefijo "DESCUENTO" (o.instrucciones_especiales.getD "") →
      ((∃ l ∈ ticketLineas loc o, esPrefijo "DESCUENTO" l) ↔
        0 < o.descuento)) ∧
    "TOTAL: $44.200" ∈ ticketLineas locEj ordenEj ∧
    (ticketLineas locEj ordenEj).getLast? =
      some "========================================" := by
  refine ⟨by decide, by decide, by decide, ?_, ?_, by decide, by decide⟩
  · intro loc o h
    simp [ticketLineas, h]
  · intro loc o hdir hins
    constructor
    · rintro ⟨l, hl, hpre⟩
      by_contra hdesc
      exact ticketLineas_sin_descuento loc o hdir hins hdesc l hl hpre
    · intro h
      refine ⟨"DESCUENTO: -" ++ formatearPrecio (.num o.descuento), ?_,
        prefijo_descuento_append _⟩
      simp [ticketLineas, h]

/-- C3 (witness): the discount clause of the amended statement discharged at
order 77 with a 500-peso discount — both the unconditional emission of the
exact line and the biconditional with its free-text side conditions. -/
theorem c3_ticket_orden77_witness :
    ("DESCUENTO: -" ++ formatearPrecio (.num 500)) ∈
      ticketLineas locEj { ordenEj with descuento := 500 } ∧
    (∃ l ∈ ticketLineas locEj { ordenEj with descuento := 500 },
      esPrefijo "DESCUENTO" l) := by
  constructor
  · exact c3_ticket_orden77.2.2.2.1 locEj { ordenEj with descuento := 500 }
      (by decide)
  · exact (c3_ticket_orden77.2.2.2.2.1 locEj
      { ordenEj with descuento := 500 } (by decide) (by decide)).mpr
      (by decide)

/-- C6: `generarTicket` is a total function — it is defined (and equals the
explicit line list below) for every well-typed order with the optional fields
`instrucciones_especiales`, `eta_minutos` and `metodo_pago` absent and no
`items_json`: each absent optional field contributes no line at all (no empty
placeholder line), the empty item list renders nothing between the
`ITEMS DEL PEDIDO` header block and the delivery-address separator, and the
absent payment method renders as `No especificado`.  Additionally, an item
whose `extras` list is empty (or absent) contributes no `    + ` extra line:
with its other optionals also absent its block is exactly the name line, the
`Precio` line and a blank line. -/
theorem c6_opcionales_omitidos (loc : String → FechaHora) (o : Orden)
    (item : Item)
    (h1 : o.instrucciones_especiales = none) (h2 : o.eta_minutos = none)
    (h3 : o.metodo_pago = none) (h4 : o.items_json = none) :
    (ticketLineas loc o =
      ["========================================",
       "        PIZZERÍA LA FORNACE",
       "        TICKET DE COCINA",
       "========================================",
       "",
       "Orden #: " ++ Nat.repr o.id,
       "Fecha: " ++ (formatearFechaHora loc o.fecha).fecha,
       "Hora: " ++ (formatearFechaHora loc o.fecha).hora,
       "",
       "----------------------------------------",
       "ITEMS DEL PEDIDO:",
       "----------------------------------------",
       "",
       "----------------------------------------",
       "DIRECCIÓN DE ENTREGA:",
       "----------------------------------------",
       o.direccion,
       "Tel: " ++ o.telefono,
       "",
       "----------------------------------------",
       "SUBTOTAL: " ++ formatearPrecio (.num o.subtotal),
       "ENVÍO: " ++ formatearPrecio (.num o.costo_envio),
       "IVA: " ++ formatearPrecio (.num o.impuestos)] ++
      (if 0 < o.descuento then
        ["DESCUENTO: -" ++ formatearPrecio (.num o.descuento)]
       else []) ++
      ["----------------------------------------",
       "TOTAL: " ++ formatearPrecio (.num o.total),
       "----------------------------------------",
       "",
       "Estado: " ++ textoJS (obtenerInfoEstadoCocina o.estado).texto,
       "Método de pago: No especificado",
       "",
       "========================================"]) ∧
    (item.extras = [] → item.notas = none → item.tamanio = none →
      itemLineas item =
        [Nat.repr item.cantidad ++ "x " ++ item.nombre,
         "    Precio: " ++
           formatearPrecio (.num (item.precio_unitario * item.cantidad)),
         ""]) := by
  constructor
  · simp [ticketLineas, itemsDeOrden, h1, h2, h3, h4, truthyStr, truthyNat]
  · intro he hn ht
    simp [itemLineas, he, hn, ht, truthyStr]

/-- C6 (witness): the optional-field omission evaluated on a concrete order
with every optional field absent and a concrete extras-free item. -/
theorem c6_opcionales_omitidos_witness :
    (ticketLineas locEj
        { id := 5, estado := "pendiente", direccion := "Calle 2",
          telefono := "+56911111111", subtotal := 1000, costo_envio := 0,
          impuestos := 190, total := 1190 } =
      ["========================================",
       "        PIZZERÍA LA FORNACE",
       "        TICKET DE COCINA",
       "========================================",
       "",
       "Orden #: " ++ Nat.repr 5,
       "Fecha: " ++ (formatearFechaHora locEj none).fecha,
       "Hora: " ++ (formatearFechaHora locEj none).hora,
       "",
       "----------------------------------------",
       "ITEMS DEL PEDIDO:",
       "----------------------------------------",
       "",
       "----------------------------------------",
       "DIRECCIÓN DE ENTREGA:",
       "----------------------------------------",
       "Calle 2",
       "Tel: " ++ "+56911111111",
       "",
       "----------------------------------------",
       "SUBTOTAL: " ++ formatearPrecio (.num 1000),
       "ENVÍO: " ++ formatearPrecio (.num 0),
       "IVA: " ++ formatearPrecio (.num 190)] ++
      (if 0 < (0 : Nat) then
        ["DESCUENTO: -" ++ formatearPrecio (.num 0)]
       else []) ++
      ["----------------------------------------",
       "TOTAL: " ++ formatearPrecio (.num 1190),
       "----------------------------------------",
       "",
       "Estado: " ++ textoJS (obtenerInfoEstadoCocina "pendiente").texto,
       "Método de pago: No especificado",
       "",
       "========================================"]) ∧
    (({ nombre := "Napolitana", cantidad := 1, precio_unitario := 9000 } :
        Item).extras = [] →
      ({ nombre := "Napolitana", cantidad := 1, precio_unitario := 9000 } :
        Item).notas = none →
      ({ nombre := "Napolitana", cantidad := 1, precio_unitario := 9000 } :
        Item).tamanio = none →
      itemLineas { nombre := "Napolitana", cantidad := 1,
                   precio_unitario := 9000 } =
        [Nat.repr 1 ++ "x " ++ "Napolitana",
         "    Precio: " ++ formatearPrecio (.num (9000 * 1)),
         ""]) :=
  c6_opcionales_omitidos locEj
    { id := 5, estado := "pendiente", direccion := "Calle 2",
      telefono := "+56911111111", subtotal := 1000, costo_envio := 0,
      impuestos := 190, total := 1190 }
    { nombre := "Napolitana", cantidad := 1, precio_unitario := 9000 }
    rfl rfl rfl rfl

/-- C8: for every filter value, the rendered view is a permutation of the
filtered orders, sorted by the `new Date(fecha)` timestamp descending
(newest first), and the sort is stable: for any timestamp value, the orders
carrying it appear in the view in exactly their original fetch order.
`Array.prototype.sort` is stable per ES2019, which the model realizes with
the stable `List.mergeSort`. -/
theorem c8_orden_fecha (dparse : Option String → Int) (filtro : String)
    (ordenes : List Orden) :
    (ordenesVista dparse filtro ordenes).Perm (filtrarOrdenes filtro ordenes) ∧
    (ordenesVista dparse filtro ordenes).Pairwise
      (fun a b => dparse b.fecha ≤ dparse a.fecha) ∧
    ∀ t : Int,
      (ordenesVista dparse filtro ordenes).filter
          (fun o => decide (dparse o.fecha = t)) =
        (filtrarOrdenes filtro ordenes).filter
          (fun o => decide (dparse o.fecha = t)) := by
  have htrans : ∀ a b c : Orden,
      decide (dparse b.fecha ≤ dparse a.fecha) →
      decide (dparse c.fecha ≤ dparse b.fecha) →
      decide (dparse c.fecha ≤ dparse a.fecha) := by
    intro a b c h1 h2
    simp only [decide_eq_true_eq] at *
    omega
  have htot : ∀ a b : Orden,
      decide (dparse b.fecha ≤ dparse a.fecha) ||
      decide (dparse a.fecha ≤ dparse b.fecha) := by
    intro a b
    simp only [Bool.or_eq_true, decide_eq_true_eq]
    omega
  refine ⟨List.mergeSort_perm _ _, ?_, ?_⟩
  · exact (List.sorted_mergeSort htrans htot _).imp (fun h => by
      simpa using h)
  · intro t
    set l := filtrarOrdenes filtro ordenes with hl
    set p : Orden → Bool := fun o => decide (dparse o.fecha = t) with hp
    have hc_pair : (l.filter p).Pairwise
        (fun a b => decide (dparse b.fecha ≤ dparse a.fecha)) := by
      apply List.pairwise_of_forall_mem_list
      intro a ha b hb
      have hpa := (List.mem_filter.mp ha).2
      have hpb := (List.mem_filter.mp hb).2
      simp only [hp, decide_eq_true_eq] at hpa hpb
      simp only [decide_eq_true_eq]
      omega
    have hsub : List.Sublist (l.filter p)
        (l.mergeSort (fun a b => decide (dparse b.fecha ≤ dparse a.fecha))) :=
      List.sublist_mergeSort htrans htot hc_pair (List.filter_sublist l)
    have hsub2 : List.Sublist (l.filter p)
        ((l.mergeSort (fun a b =>
          decide (dparse b.fecha ≤ dparse a.fecha))).filter p) := by
      have h := hsub.filter p
      rwa [List.filter_eq_self.mpr (fun a ha => (List.mem_filter.mp ha).2)] at h
    have hperm :
        ((l.mergeSort (fun a b =>
          decide (dparse b.fecha ≤ dparse a.fecha))).filter p).Perm
          (l.filter p) := (List.mergeSort_perm l _).filter p
    exact (hsub2.eq_of_length hperm.length_eq.symm).symm

/-- C8 (witness): the sort contract evaluated on a concrete two-order list
under the `todos` filter and the concrete timestamp function `dpEj`. -/
theorem c8_orden_fecha_witness :
    (ordenesVista dpEj "todos" [ordenEj, { ordenEj with id := 78 }]).Perm
      (filtrarOrdenes "todos" [ordenEj, { ordenEj with id := 78 }]) ∧
    (ordenesVista dpEj "todos" [ordenEj, { ordenEj with id := 78 }]).Pairwise
      (fun a b => dpEj b.fecha ≤ dpEj a.fecha) ∧
    (ordenesVista dpEj "todos" [ordenEj, { ordenEj with id := 78 }]).filter
        (fun o => decide (dpEj o.fecha = 20)) =
      (filtrarOrdenes "todos" [ordenEj, { ordenEj with id := 78 }]).filter
        (fun o => decide (dpEj o.fecha = 20)) := by
  obtain ⟨h1, h2, h3⟩ :=
    c8_orden_fecha dpEj "todos" [ordenEj, { ordenEj with id := 78 }]
  exact ⟨h1, h2, h3 20⟩
